import Mathlib

/-!
Verification of the diet-app health-metric and meal-plan engine
(`models.py` / `engine.py`).

Modelling conventions:
- Python floats are modelled as exact rationals (`ℚ`); the body-fat
  computation, which goes through `math.log10`, is modelled over `ℝ`
  with `Real.logb 10`.
- `round(x, 2)` is Python's banker's rounding (round half to even) at
  two decimal places; binary-representation error of floats is not
  modelled.
- Python exceptions are modelled by the `Except PyError` monad.
  `math.log10` raises `ValueError("math domain error")` on a
  non-positive argument; this is the `mathDomainError` constructor.
- The SQLAlchemy session is modelled as an explicit record of tables
  (`DB`); `query(...).filter(...).all()` is `List.filter` preserving
  row order, `.first()` is `List.find?`.  The engine performs no
  writes, so functions that in the source take `self.db` thread the
  `DB` value through unchanged.
- `ActivityLevel` is a `str` enum in the source and the multiplier
  lookup `multipliers.get(self.activity_level, 1.2)` has a default for
  values outside the enum, so `activity_level` is modelled as a
  `String`.
- `gender` is a plain string column, compared via `.lower()`.
-/

/-- Python exceptions raised by the modelled code. -/
inductive PyError where
  /-- `ValueError("Hip measurement is required for female body fat calculation")`. -/
  | missingHipMeasurement : PyError
  /-- `ValueError("math domain error")` raised by `math.log10` on a non-positive argument. -/
  | mathDomainError : PyError
  /-- `ValueError(f"User with ID {user_id} not found")`. -/
  | userNotFound (user_id : Int) : PyError
deriving DecidableEq, Repr

/-- `MealType` enum from `models.py`. -/
inductive MealType where
  | breakfast : MealType
  | lunch : MealType
  | dinner : MealType
  | snack : MealType
deriving DecidableEq, Repr

/-- Round half to even (banker's rounding), the semantics of Python's `round`. -/
def round_half_even (q : ℚ) : ℤ :=
  let n := ⌊q⌋
  let f := q - n
  if f < 1/2 then n
  else if 1/2 < f then n + 1
  else if Even n then n else n + 1

/-- Python `round(x, 2)`. -/
def round2 (q : ℚ) : ℚ :=
  (round_half_even (q * 100) : ℚ) / 100

/-- Python `round(x, 2)` on the real-valued body-fat result. -/
noncomputable def round2_real (x : ℝ) : ℝ :=
  let n := ⌊x * 100⌋
  let f := x * 100 - n
  ((if f < 1/2 then n else if 1/2 < f then n + 1 else if Even n then n else n + 1 : ℤ) : ℝ) / 100

/-- Python `str.lower()` — the source only ever lower-cases plain ASCII
gender strings, so it is modelled as a character-wise `Char.toLower`. -/
def py_lower (s : String) : String := ⟨s.data.map Char.toLower⟩

/-- Python `math.log10`: raises `ValueError("math domain error")` for `x ≤ 0`. -/
noncomputable def log10 (x : ℝ) : Except PyError ℝ :=
  if x ≤ 0 then .error .mathDomainError else .ok (Real.logb 10 x)

/-- `User` model (`models.py`), restricted to the measurement columns the
health calculations read.  `hip_cm` is nullable (required for females only). -/
structure User where
  id : Int
  gender : String
  age : Int
  height_cm : ℚ
  weight_kg : ℚ
  activity_level : String
  waist_cm : ℚ
  neck_cm : ℚ
  hip_cm : Option ℚ
deriving DecidableEq, Repr

namespace User

/-- `User.calculate_bmi`: `weight_kg / (height_cm/100)^2`, rounded to 2 decimals. -/
def calculate_bmi (u : User) : ℚ :=
  let height_m := u.height_cm / 100
  round2 (u.weight_kg / height_m ^ 2)

/-- `User.calculate_body_fat`, U.S. Navy method.  The male branch evaluates
`math.log10(waist - neck)` with no domain guard; the female branch first
checks `hip_cm` for `None` and then evaluates `math.log10(waist + hip - neck)`
with no domain guard. -/
noncomputable def calculate_body_fat (u : User) : Except PyError ℝ :=
  if py_lower u.gender = "male" then do
    let lw ← log10 ((u.waist_cm : ℝ) - (u.neck_cm : ℝ))
    let lh ← log10 (u.height_cm : ℝ)
    return round2_real (495 / (1.0324 - 0.19077 * lw + 0.15456 * lh) - 450)
  else
    match u.hip_cm with
    | none => .error .missingHipMeasurement
    | some hip => do
      let lw ← log10 ((u.waist_cm : ℝ) + (hip : ℝ) - (u.neck_cm : ℝ))
      let lh ← log10 (u.height_cm : ℝ)
      return round2_real (495 / (1.29579 - 0.35004 * lw + 0.22100 * lh) - 450)

/-- `User.calculate_bmr`, Mifflin-St Jeor:
`10·weight + 6.25·height - 5·age + s`, `s = +5` iff `gender.lower() == "male"`,
else `-161`; rounded to 2 decimals. -/
def calculate_bmr (u : User) : ℚ :=
  let s : ℚ := if py_lower u.gender = "male" then 5 else -161
  round2 (10 * u.weight_kg + 6.25 * u.height_cm - 5 * (u.age : ℚ) + s)

/-- The `multipliers` dict of `User.calculate_tdee` together with the
`.get(..., 1.2)` default: `ActivityLevel` is a `str` enum, so the lookup is by
string value, and any value outside the five members falls to `1.2`. -/
def activity_multiplier (level : String) : ℚ :=
  if level = "sedentary" then 1.2
  else if level = "light" then 1.375
  else if level = "moderate" then 1.55
  else if level = "very" then 1.725
  else if level = "athlete" then 1.9
  else 1.2

/-- `User.calculate_tdee`: `round(bmr * multiplier, 2)`. -/
def calculate_tdee (u : User) : ℚ :=
  round2 (u.calculate_bmr * activity_multiplier u.activity_level)

end User

/-- The dict returned by `User.get_health_metrics`. -/
structure HealthMetrics where
  bmi : ℚ
  body_fat_percent : ℝ
  bmr : ℚ
  tdee : ℚ

/-- `User.get_health_metrics`: aggregates the four metrics; `calculate_body_fat`
is the only fallible call and its exception propagates (there is no
`try`/`except` in the source method). -/
noncomputable def User.get_health_metrics (u : User) : Except PyError HealthMetrics := do
  let bf ← u.calculate_body_fat
  return { bmi := u.calculate_bmi, body_fat_percent := bf,
           bmr := u.calculate_bmr, tdee := u.calculate_tdee }

/-- `Recipe` model (`models.py`), restricted to the columns the engine reads. -/
structure Recipe where
  id : Int
  name : String
  meal_type : MealType
  kcal : ℚ
  protein_g : ℚ
  carbs_g : ℚ
  fat_g : ℚ
deriving DecidableEq, Repr

/-- `RecipeIngredient` junction row (`models.py`). -/
structure RecipeIngredient where
  id : Int
  recipe_id : Int
  ingredient_id : Int
  quantity : ℚ
deriving DecidableEq, Repr

/-- `Pantry` row (`models.py`): an ingredient the user owns. -/
structure Pantry where
  id : Int
  user_id : Int
  ingredient_id : Int
  quantity : ℚ
deriving DecidableEq, Repr

/-- The database session's visible contents: the tables the engine queries,
each as a list of rows in table order. -/
structure DB where
  users : List User
  recipes : List Recipe
  recipe_ingredients : List RecipeIngredient
  pantry : List Pantry
deriving Repr

namespace DietEngine

/-- `DietEngine.MEAL_DISTRIBUTION`, a dict in insertion order. -/
def MEAL_DISTRIBUTION : List (MealType × ℚ) :=
  [(.breakfast, 0.25), (.lunch, 0.35), (.dinner, 0.30), (.snack, 0.10)]

/-- `DietEngine.calculate_target_calories`: `max(tdee + deficit, floor)` with
floor 1200 iff `gender.lower() == "female"`, else 1500. -/
def calculate_target_calories (user : User) (deficit : Int) : ℚ :=
  let tdee := user.calculate_tdee
  let target := tdee + (deficit : ℚ)
  let min_calories : ℚ := if py_lower user.gender = "female" then 1200 else 1500
  max target min_calories

/-- `DietEngine.get_meal_calorie_targets`: split the total by the fixed
percentages. -/
def get_meal_calorie_targets (total_calories : ℚ) : List (MealType × ℚ) :=
  MEAL_DISTRIBUTION.map (fun p => (p.1, total_calories * p.2))

/-- `DietEngine.filter_recipes_by_calories`: recipes of the given meal type
whose kcal lies in the inclusive band `[target·(1-tol), target·(1+tol)]`. -/
def filter_recipes_by_calories (db : DB) (meal_type : MealType)
    (target_kcal tolerance : ℚ) : List Recipe :=
  let min_kcal := target_kcal * (1 - tolerance)
  let max_kcal := target_kcal * (1 + tolerance)
  db.recipes.filter (fun r =>
    decide (r.meal_type = meal_type) && decide (min_kcal ≤ r.kcal) && decide (r.kcal ≤ max_kcal))

/-- `DietEngine.calculate_pantry_score`: 100 when the recipe has no
ingredient rows, otherwise `round((owned / total) * 100, 2)`.  The Python
set `{item.ingredient_id for item in user_pantry}` is modelled by membership
in the list of ids (`List.contains`), which is extensionally the same test. -/
def calculate_pantry_score (db : DB) (recipe : Recipe) (user_id : Int) : ℚ :=
  let recipe_ingredients := db.recipe_ingredients.filter (fun ri => ri.recipe_id == recipe.id)
  if recipe_ingredients.isEmpty then 100
  else
    let user_pantry := db.pantry.filter (fun item => item.user_id == user_id)
    let pantry_ingredient_ids := user_pantry.map (fun item => item.ingredient_id)
    let total_ingredients := recipe_ingredients.length
    let owned_ingredients :=
      (recipe_ingredients.filter (fun ri => pantry_ingredient_ids.contains ri.ingredient_id)).length
    round2 ((owned_ingredients : ℚ) / (total_ingredients : ℚ) * 100)

/-- One entry of the `scored_recipes` list built by
`DietEngine.get_scored_recipes`. -/
structure ScoredRecipe where
  id : Int
  name : String
  meal_type : MealType
  kcal : ℚ
  protein_g : ℚ
  carbs_g : ℚ
  fat_g : ℚ
  pantry_score : ℚ
deriving DecidableEq, Repr

/-- The dict built for one recipe inside `DietEngine.get_scored_recipes`. -/
def score_recipe (db : DB) (user_id : Int) (r : Recipe) : ScoredRecipe :=
  { id := r.id, name := r.name, meal_type := r.meal_type, kcal := r.kcal,
    protein_g := r.protein_g, carbs_g := r.carbs_g, fat_g := r.fat_g,
    pantry_score := calculate_pantry_score db r user_id }

/-- `DietEngine.get_scored_recipes`: score the calorie-filtered candidates and
sort by `pantry_score` descending.  Python's `list.sort` is a stable sort and
`reverse=True` inverts the key comparison while keeping ties in list order, so
it is modelled by the stable `List.mergeSort` with `le a b := b.score ≤ a.score`. -/
def get_scored_recipes (db : DB) (meal_type : MealType) (target_kcal : ℚ)
    (user_id : Int) (tolerance : ℚ) : List ScoredRecipe :=
  let recipes := filter_recipes_by_calories db meal_type target_kcal tolerance
  let scored_recipes := recipes.map (score_recipe db user_id)
  scored_recipes.mergeSort (fun a b => decide (b.pantry_score ≤ a.pantry_score))

/-- One meal slot of the generated plan. -/
structure MealSlot where
  meal_type : MealType
  target_kcal : ℚ
  recommended_recipes : List ScoredRecipe
deriving Repr

/-- The `total_macros` rollup of the generated plan. -/
structure Macros where
  protein_g : ℚ
  carbs_g : ℚ
  fat_g : ℚ
  note : String
deriving Repr

/-- The dict returned by `DietEngine.generate_meal_plan`. -/
structure MealPlan where
  user_id : Int
  tdee : ℚ
  target_daily_kcal : ℚ
  deficit : Int
  meals : List MealSlot
  total_macros : Macros
deriving Repr

/-- `DietEngine.generate_meal_plan`.  The session is threaded explicitly; the
source method only reads, so the returned `DB` is the input `DB`.  An unknown
`user_id` raises `ValueError(f"User with ID {user_id} not found")` before any
other work.  Macros are summed from the top-ranked recipe of each slot. -/
def generate_meal_plan (db : DB) (user_id : Int) (deficit : Int) :
    Except PyError MealPlan × DB :=
  match db.users.find? (fun u => u.id == user_id) with
  | none => (.error (.userNotFound user_id), db)
  | some user =>
    let tdee := user.calculate_tdee
    let target_daily_kcal := calculate_target_calories user deficit
    let meal_targets := get_meal_calorie_targets target_daily_kcal
    let slots := meal_targets.map (fun p =>
      (p.1, p.2, get_scored_recipes db p.1 p.2 user_id 0.10))
    let meals := slots.map (fun t =>
      { meal_type := t.1, target_kcal := round2 t.2.1,
        recommended_recipes := t.2.2.take 5 : MealSlot })
    let tops := slots.filterMap (fun t => t.2.2.head?)
    (.ok { user_id := user_id, tdee := tdee, target_daily_kcal := target_daily_kcal,
           deficit := deficit, meals := meals,
           total_macros :=
             { protein_g := round2 (tops.map (fun t => t.protein_g)).sum,
               carbs_g := round2 (tops.map (fun t => t.carbs_g)).sum,
               fat_g := round2 (tops.map (fun t => t.fat_g)).sum,
               note := "Macros calculated from top recipe recommendations" } },
     db)

end DietEngine

/-! Concrete inputs used by counterexamples and witnesses. -/

/-- Male profile whose log argument `waist - neck` is zero. -/
def log_domain_user : User :=
  { id := 7, gender := "male", age := 40, height_cm := 175, weight_kg := 80,
    activity_level := "moderate", waist_cm := 90, neck_cm := 90, hip_cm := none }

/-- Female profile whose log argument `waist + hip - neck` is negative. -/
def female_log_domain_user : User :=
  { id := 8, gender := "female", age := 35, height_cm := 160, weight_kg := 55,
    activity_level := "light", waist_cm := 50, neck_cm := 80, hip_cm := some 20 }

/-- Female profile without a hip measurement. -/
def hipless_female : User :=
  { id := 2, gender := "female", age := 28, height_cm := 165, weight_kg := 60,
    activity_level := "light", waist_cm := 80, neck_cm := 35, hip_cm := none }

/-- Male profile whose TDEE evaluates to exactly 1400 kcal
(BMR 1166.67 at sedentary multiplier 1.2). -/
def tdee1400_male : User :=
  { id := 3, gender := "male", age := 30, height_cm := 175, weight_kg := 21.792,
    activity_level := "sedentary", waist_cm := 85, neck_cm := 38, hip_cm := none }

/-- The male BMR example profile: weight 70, height 175, age 30. -/
def bmr_example_male : User :=
  { id := 4, gender := "male", age := 30, height_cm := 175, weight_kg := 70,
    activity_level := "moderate", waist_cm := 85, neck_cm := 38, hip_cm := none }

/-- The otherwise-identical female BMR example profile. -/
def bmr_example_female : User :=
  { bmr_example_male with id := 5, gender := "female", hip_cm := some 95 }

/-- Store containing a single user with id 4. -/
def single_user_db : DB :=
  { users := [bmr_example_male], recipes := [], recipe_ingredients := [], pantry := [] }

/-- Recipe with no ingredient rows in `pantry_db`. -/
def recipe_no_ingredients : Recipe :=
  { id := 1, name := "A", meal_type := .lunch, kcal := 500,
    protein_g := 10, carbs_g := 20, fat_g := 5 }

/-- Recipe with four ingredient rows (ids 10, 11, 12, 13) in `pantry_db`. -/
def recipe_four_ingredients : Recipe :=
  { id := 2, name := "B", meal_type := .dinner, kcal := 600,
    protein_g := 30, carbs_g := 40, fat_g := 15 }

/-- Store where user 1 owns exactly ingredient 10 and the two recipes above
have zero and four ingredient rows respectively. -/
def pantry_db : DB :=
  { users := [],
    recipes := [recipe_no_ingredients, recipe_four_ingredients],
    recipe_ingredients :=
      [{ id := 1, recipe_id := 2, ingredient_id := 10, quantity := 1 },
       { id := 2, recipe_id := 2, ingredient_id := 11, quantity := 2 },
       { id := 3, recipe_id := 2, ingredient_id := 12, quantity := 3 },
       { id := 4, recipe_id := 2, ingredient_id := 13, quantity := 4 }],
    pantry :=
      [{ id := 1, user_id := 1, ingredient_id := 10, quantity := 2 },
       { id := 2, user_id := 2, ingredient_id := 11, quantity := 1 }] }

/-- Alternative pantry for user 1 with the same distinct ingredient-id set
`{10}` but duplicate rows and different quantities, plus a row of user 2. -/
def pantry_dup_rows : List Pantry :=
  [{ id := 7, user_id := 1, ingredient_id := 10, quantity := 99 },
   { id := 8, user_id := 1, ingredient_id := 10, quantity := 1 },
   { id := 9, user_id := 2, ingredient_id := 55, quantity := 1 }]

/-- Lunch recipe sitting exactly on the upper calorie boundary `100 × 1.10`. -/
def recipe_kcal110 : Recipe :=
  { id := 10, name := "Boundary", meal_type := .lunch, kcal := 110,
    protein_g := 1, carbs_g := 2, fat_g := 3 }

/-- Lunch recipe one unit above the upper calorie boundary. -/
def recipe_kcal111 : Recipe :=
  { id := 11, name := "Above", meal_type := .lunch, kcal := 111,
    protein_g := 1, carbs_g := 2, fat_g := 3 }

/-- Store for the calorie-band boundary check. -/
def boundary_db : DB :=
  { users := [], recipes := [recipe_kcal110, recipe_kcal111],
    recipe_ingredients := [], pantry := [] }

/-! Claim theorems. -/

/-- C2: for every user and every integer deficit, `calculate_target_calories`
returns `max(tdee + deficit, floor)` with floor 1200 when the lower-cased
gender is `"female"` and 1500 otherwise; the result never drops below the
floor, and a male user with TDEE 1400 and deficit `-1000` gets 1500, not 400. -/
theorem C2_target_calories_clamped :
    (∀ (u : User) (deficit : Int),
      DietEngine.calculate_target_calories u deficit =
        max (u.calculate_tdee + (deficit : ℚ))
          (if py_lower u.gender = "female" then 1200 else 1500) ∧
      (if py_lower u.gender = "female" then (1200 : ℚ) else 1500) ≤
        DietEngine.calculate_target_calories u deficit) ∧
    tdee1400_male.calculate_tdee = 1400 ∧
    DietEngine.calculate_target_calories tdee1400_male (-1000) = 1500 := by
  refine ⟨fun u deficit => ⟨rfl, le_max_right _ _⟩, ?_, ?_⟩
  · show round2 (tdee1400_male.calculate_bmr *
      User.activity_multiplier tdee1400_male.activity_level) = 1400
    have hb : tdee1400_male.calculate_bmr = 1166.67 := by
      simp [User.calculate_bmr, tdee1400_male, py_lower]
      norm_num [round2, round_half_even, Int.even_iff]
    rw [hb]
    simp [tdee1400_male, User.activity_multiplier]
    norm_num [round2, round_half_even, Int.even_iff]
  · show max (tdee1400_male.calculate_tdee + ((-1000 : Int) : ℚ)) _ = 1500
    have ht : tdee1400_male.calculate_tdee = 1400 := by
      show round2 (tdee1400_male.calculate_bmr *
        User.activity_multiplier tdee1400_male.activity_level) = 1400
      have hb : tdee1400_male.calculate_bmr = 1166.67 := by
        simp [User.calculate_bmr, tdee1400_male, py_lower]
        norm_num [round2, round_half_even, Int.even_iff]
      rw [hb]
      simp [tdee1400_male, User.activity_multiplier]
      norm_num [round2, round_half_even, Int.even_iff]
    rw [ht]
    have : py_lower tdee1400_male.gender = "male" := by decide
    simp [this]
    norm_num

/-- C8 counterexample: the male example profile (weight 70, height 175,
age 30) has BMR `10*70 + 6.25*175 - 5*30 + 5 = 1648.75`, not the 1073.75
stated by the claim. -/
theorem C8_bmr_example_value_wrong :
    bmr_example_male.calculate_bmr = 1648.75 ∧
    bmr_example_male.calculate_bmr ≠ 1073.75 := by
  have h : bmr_example_male.calculate_bmr = 1648.75 := by
    simp [User.calculate_bmr, bmr_example_male, py_lower]
    norm_num [round2, round_half_even, Int.even_iff]
  exact ⟨h, by rw [h]; norm_num⟩

/-- C8 (amended): for every profile, `calculate_bmr` equals
`10·weight + 6.25·height - 5·age + s` rounded to 2 decimals, with `s = +5`
exactly when the gender lower-cases to `"male"` and `s = -161` otherwise;
the male example profile (70 kg, 175 cm, 30 y) gives 1648.75 and the
identical female profile gives 1482.75. -/
theorem C8_bmr_formula :
    (∀ u : User, u.calculate_bmr =
      round2 (10 * u.weight_kg + 6.25 * u.height_cm - 5 * (u.age : ℚ)
        + (if py_lower u.gender = "male" then (5 : ℚ) else -161))) ∧
    bmr_example_male.calculate_bmr = 1648.75 ∧
    bmr_example_female.calculate_bmr = 1482.75 := by
  refine ⟨fun u => rfl, ?_, ?_⟩
  · simp [User.calculate_bmr, bmr_example_male, py_lower]
    norm_num [round2, round_half_even, Int.even_iff]
  · simp [User.calculate_bmr, bmr_example_female, bmr_example_male, py_lower]
    norm_num [round2, round_half_even, Int.even_iff]

/-- C9: for every profile, `calculate_tdee` is `bmr × multiplier` rounded to
2 decimals, with the fixed table sedentary 1.2, light 1.375, moderate 1.55,
very 1.725, athlete 1.9, and every activity level outside these five
defaulting to 1.2 rather than failing. -/
theorem C9_tdee_multiplier_table :
    (∀ u : User, u.calculate_tdee =
      round2 (u.calculate_bmr * User.activity_multiplier u.activity_level)) ∧
    (User.activity_multiplier "sedentary" = 1.2 ∧
     User.activity_multiplier "light" = 1.375 ∧
     User.activity_multiplier "moderate" = 1.55 ∧
     User.activity_multiplier "very" = 1.725 ∧
     User.activity_multiplier "athlete" = 1.9) ∧
    (∀ s : String, s ≠ "sedentary" → s ≠ "light" → s ≠ "moderate" →
      s ≠ "very" → s ≠ "athlete" → User.activity_multiplier s = 1.2) := by
  refine ⟨fun u => rfl, ⟨?_, ?_, ?_, ?_, ?_⟩, ?_⟩
  · simp [User.activity_multiplier]
  · simp [User.activity_multiplier]
  · simp [User.activity_multiplier]
  · simp [User.activity_multiplier]
  · simp [User.activity_multiplier]
  · intro s h1 h2 h3 h4 h5
    simp [User.activity_multiplier, h1, h2, h3, h4, h5]

/-- C9 witness: an activity level outside the table falls to the sedentary
multiplier 1.2. -/
theorem C9_tdee_multiplier_table_witness :
    User.activity_multiplier "swimmer" = 1.2 :=
  C9_tdee_multiplier_table.2.2 "swimmer" (by decide) (by decide) (by decide)
    (by decide) (by decide)

/-- C1 (code evaluated at the failing input): for a male profile with
`waist - neck = 0` the source `calculate_body_fat` has no domain guard, so
`math.log10` raises its language-level `ValueError("math domain error")`;
no `InvalidMeasurement`-style typed domain error exists anywhere in the code. -/
theorem C1_math_domain_error_leaks :
    log_domain_user.calculate_body_fat = .error .mathDomainError ∧
    female_log_domain_user.calculate_body_fat = .error .mathDomainError := by
  constructor
  · have hg : py_lower log_domain_user.gender = "male" := by decide
    have hl : log10 ((log_domain_user.waist_cm : ℝ) - (log_domain_user.neck_cm : ℝ)) =
        .error .mathDomainError := by
      unfold log10
      rw [if_pos]
      show ((log_domain_user.waist_cm : ℚ) : ℝ) - ((log_domain_user.neck_cm : ℚ) : ℝ) ≤ 0
      norm_num [log_domain_user]
    unfold User.calculate_body_fat
    rw [if_pos hg, hl]
    rfl
  · have hg : ¬ (py_lower female_log_domain_user.gender = "male") := by decide
    have hl : log10 ((female_log_domain_user.waist_cm : ℝ) + ((20 : ℚ) : ℝ)
        - (female_log_domain_user.neck_cm : ℝ)) = .error .mathDomainError := by
      unfold log10
      rw [if_pos]
      show ((female_log_domain_user.waist_cm : ℚ) : ℝ) + ((20 : ℚ) : ℝ)
        - ((female_log_domain_user.neck_cm : ℚ) : ℝ) ≤ 0
      norm_num [female_log_domain_user]
    unfold User.calculate_body_fat
    rw [if_neg hg]
    show (do
      let lw ← log10 ((female_log_domain_user.waist_cm : ℝ) + ((20 : ℚ) : ℝ)
        - (female_log_domain_user.neck_cm : ℝ))
      let lh ← log10 (female_log_domain_user.height_cm : ℝ)
      return round2_real (495 / (1.29579 - 0.35004 * lw + 0.22100 * lh) - 450)) =
      Except.error PyError.mathDomainError
    rw [hl]
    rfl

/-- C3: a female profile with no hip measurement makes `calculate_body_fat`
fail with the missing-hip error (before any computation), and
`get_health_metrics` propagates that error unchanged. -/
theorem C3_missing_hip_propagates (u : User)
    (hg : py_lower u.gender = "female") (hh : u.hip_cm = none) :
    u.calculate_body_fat = .error .missingHipMeasurement ∧
    u.get_health_metrics = .error .missingHipMeasurement := by
  have hmale : ¬ (py_lower u.gender = "male") := by rw [hg]; decide
  have h1 : u.calculate_body_fat = .error .missingHipMeasurement := by
    unfold User.calculate_body_fat
    rw [if_neg hmale, hh]
  refine ⟨h1, ?_⟩
  unfold User.get_health_metrics
  rw [h1]
  rfl

/-- C3 witness: the error surfaces for a concrete hipless female profile. -/
theorem C3_missing_hip_propagates_witness :
    hipless_female.calculate_body_fat = .error .missingHipMeasurement ∧
    hipless_female.get_health_metrics = .error .missingHipMeasurement :=
  C3_missing_hip_propagates hipless_female (by decide) rfl

/-- C4: for a user id matching no stored user, `generate_meal_plan` fails
with the user-not-found error and leaves the store unchanged. -/
theorem C4_unknown_user_no_writes (db : DB) (user_id deficit : Int)
    (h : ∀ u ∈ db.users, u.id ≠ user_id) :
    DietEngine.generate_meal_plan db user_id deficit =
      (.error (.userNotFound user_id), db) := by
  have hf : db.users.find? (fun u => u.id == user_id) = none := by
    apply List.find?_eq_none.mpr
    intro u hu
    simpa using h u hu
  unfold DietEngine.generate_meal_plan
  rw [hf]

/-- C4 witness: looking up id 99 in a store holding only user id 4. -/
theorem C4_unknown_user_no_writes_witness :
    DietEngine.generate_meal_plan single_user_db 99 (-500) =
      (.error (.userNotFound 99), single_user_db) :=
  C4_unknown_user_no_writes single_user_db 99 (-500) (by decide)

/-- C5: the pantry score is the count of the recipe's ingredient rows whose
ingredient the user owns, over the total ingredient rows, times 100, rounded
to 2 decimals; a recipe with no ingredient rows scores exactly 100 whatever
the pantry holds. -/
theorem C5_pantry_score_formula (db : DB) (r : Recipe) (user_id : Int) :
    (db.recipe_ingredients.filter (fun ri => ri.recipe_id == r.id) = [] →
      DietEngine.calculate_pantry_score db r user_id = 100) ∧
    (db.recipe_ingredients.filter (fun ri => ri.recipe_id == r.id) ≠ [] →
      DietEngine.calculate_pantry_score db r user_id =
        round2
          ((((db.recipe_ingredients.filter (fun ri => ri.recipe_id == r.id)).countP
              (fun ri => decide (∃ item ∈ db.pantry,
                item.user_id = user_id ∧ item.ingredient_id = ri.ingredient_id))) : ℚ) /
            ((db.recipe_ingredients.filter (fun ri => ri.recipe_id == r.id)).length : ℚ)
            * 100)) := by
  constructor
  · intro h
    simp [DietEngine.calculate_pantry_score, h]
  · intro h
    have hne : (db.recipe_ingredients.filter (fun ri => ri.recipe_id == r.id)).isEmpty = false :=
      List.isEmpty_eq_false.mpr h
    have key : ∀ ri : RecipeIngredient,
        ((db.pantry.filter (fun item => item.user_id == user_id)).map
          (fun item => item.ingredient_id)).contains ri.ingredient_id =
        decide (∃ item ∈ db.pantry,
          item.user_id = user_id ∧ item.ingredient_id = ri.ingredient_id) := by
      intro ri
      rw [Bool.eq_iff_iff]
      simp only [List.contains, List.elem_eq_mem, List.mem_map, List.mem_filter,
        beq_iff_eq, decide_eq_true_eq]
      tauto
    simp only [DietEngine.calculate_pantry_score, hne, Bool.false_eq_true, if_false,
      List.countP_eq_length_filter]
    rw [List.filter_congr (fun ri _ => key ri)]

/-- C5 witness: in the concrete store, the zero-ingredient recipe scores 100
and the four-ingredient recipe with one owned ingredient scores 25. -/
theorem C5_pantry_score_formula_witness :
    DietEngine.calculate_pantry_score pantry_db recipe_no_ingredients 1 = 100 ∧
    DietEngine.calculate_pantry_score pantry_db recipe_four_ingredients 1 = 25 := by
  constructor
  · exact (C5_pantry_score_formula pantry_db recipe_no_ingredients 1).1 (by decide)
  · have h := (C5_pantry_score_formula pantry_db recipe_four_ingredients 1).2 (by decide)
    have hc : (pantry_db.recipe_ingredients.filter
        (fun ri => ri.recipe_id == recipe_four_ingredients.id)).countP
        (fun ri => decide (∃ item ∈ pantry_db.pantry,
          item.user_id = 1 ∧ item.ingredient_id = ri.ingredient_id)) = 1 := by decide
    have hl : (pantry_db.recipe_ingredients.filter
        (fun ri => ri.recipe_id == recipe_four_ingredients.id)).length = 4 := by decide
    rw [h, hc, hl]
    norm_num [round2, round_half_even, Int.even_iff]

/-- C6: `filter_recipes_by_calories` keeps exactly the catalog recipes of the
requested meal type whose kcal lies in the inclusive band
`[target·(1-tol), target·(1+tol)]`; a recipe exactly at `target × 1.10` is
kept, one unit above is dropped, and a slot with no match yields `[]`. -/
theorem C6_calorie_band (db : DB) (mt : MealType) (target tol : ℚ) :
    (∀ r : Recipe, r ∈ DietEngine.filter_recipes_by_calories db mt target tol ↔
      r ∈ db.recipes ∧ r.meal_type = mt ∧
        target * (1 - tol) ≤ r.kcal ∧ r.kcal ≤ target * (1 + tol)) ∧
    DietEngine.filter_recipes_by_calories boundary_db .lunch 100 0.10 = [recipe_kcal110] ∧
    DietEngine.filter_recipes_by_calories boundary_db .breakfast 100 0.10 = [] := by
  refine ⟨?_, ?_, ?_⟩
  · intro r
    simp [DietEngine.filter_recipes_by_calories, List.mem_filter, and_assoc]
  · simp only [DietEngine.filter_recipes_by_calories, boundary_db,
      recipe_kcal110, recipe_kcal111, List.filter_cons, List.filter_nil]
    norm_num
  · simp only [DietEngine.filter_recipes_by_calories, boundary_db,
      recipe_kcal110, recipe_kcal111, List.filter_cons, List.filter_nil]
    norm_num
    decide

/-- C10: the pantry score of a recipe depends on the user's pantry only
through the set of distinct ingredient ids present for that user — two pantry
states whose rows for the user carry the same distinct ingredient ids
(whatever the duplicates, the row quantities or the row order) produce the
same score for every recipe. -/
theorem C10_score_depends_only_on_id_set (db : DB) (p2 : List Pantry)
    (r : Recipe) (user_id : Int)
    (h1 : ∀ i ∈ (db.pantry.filter (fun item => item.user_id == user_id)).map
            (fun item => item.ingredient_id),
          i ∈ (p2.filter (fun item => item.user_id == user_id)).map
            (fun item => item.ingredient_id))
    (h2 : ∀ i ∈ (p2.filter (fun item => item.user_id == user_id)).map
            (fun item => item.ingredient_id),
          i ∈ (db.pantry.filter (fun item => item.user_id == user_id)).map
            (fun item => item.ingredient_id)) :
    DietEngine.calculate_pantry_score { db with pantry := p2 } r user_id =
      DietEngine.calculate_pantry_score db r user_id := by
  have key : ∀ ri : RecipeIngredient,
      ((p2.filter (fun item => item.user_id == user_id)).map
        (fun item => item.ingredient_id)).contains ri.ingredient_id =
      ((db.pantry.filter (fun item => item.user_id == user_id)).map
        (fun item => item.ingredient_id)).contains ri.ingredient_id := by
    intro ri
    rw [Bool.eq_iff_iff]
    simp only [List.contains, List.elem_eq_mem, decide_eq_true_eq]
    exact ⟨fun hx => h2 _ hx, fun hx => h1 _ hx⟩
  simp only [DietEngine.calculate_pantry_score]
  rw [List.filter_congr (fun ri _ => key ri)]

/-- C10 witness: duplicate rows and changed quantities with the same distinct
ingredient-id set give the same score on the four-ingredient recipe. -/
theorem C10_score_depends_only_on_id_set_witness :
    DietEngine.calculate_pantry_score { pantry_db with pantry := pantry_dup_rows }
        recipe_four_ingredients 1 =
      DietEngine.calculate_pantry_score pantry_db recipe_four_ingredients 1 :=
  C10_score_depends_only_on_id_set pantry_db pantry_dup_rows
    recipe_four_ingredients 1 (by decide) (by decide)

/-- C7: `get_scored_recipes` returns the slot's scored candidates sorted by
`pantry_score` descending, as a permutation of the scored candidate list, and
stably: for every score value, the candidates carrying that score appear in
exactly their catalog order, so ties keep insertion order and repeated calls
(the function being deterministic) return the same list. -/
theorem C7_ranking_sorted_stable (db : DB) (mt : MealType) (target_kcal : ℚ)
    (user_id : Int) (tol : ℚ) :
    List.Pairwise (fun a b : DietEngine.ScoredRecipe => b.pantry_score ≤ a.pantry_score)
      (DietEngine.get_scored_recipes db mt target_kcal user_id tol) ∧
    List.Perm (DietEngine.get_scored_recipes db mt target_kcal user_id tol)
      ((DietEngine.filter_recipes_by_calories db mt target_kcal tol).map
        (DietEngine.score_recipe db user_id)) ∧
    (∀ q : ℚ,
      (DietEngine.get_scored_recipes db mt target_kcal user_id tol).filter
          (fun x => decide (x.pantry_score = q)) =
        ((DietEngine.filter_recipes_by_calories db mt target_kcal tol).map
          (DietEngine.score_recipe db user_id)).filter
          (fun x => decide (x.pantry_score = q))) := by
  set le : DietEngine.ScoredRecipe → DietEngine.ScoredRecipe → Bool :=
    fun a b => decide (b.pantry_score ≤ a.pantry_score) with hle
  have trans : ∀ a b c, le a b → le b c → le a c := by
    intro a b c hab hbc
    simp only [hle, decide_eq_true_eq] at hab hbc ⊢
    exact le_trans hbc hab
  have total : ∀ a b, le a b || le b a := by
    intro a b
    simp only [hle, Bool.or_eq_true, decide_eq_true_eq]
    exact le_total b.pantry_score a.pantry_score
  set cand := (DietEngine.filter_recipes_by_calories db mt target_kcal tol).map
    (DietEngine.score_recipe db user_id) with hcand
  have hout : DietEngine.get_scored_recipes db mt target_kcal user_id tol =
      cand.mergeSort le := rfl
  refine ⟨?_, ?_, ?_⟩
  · rw [hout]
    exact (List.sorted_mergeSort trans total cand).imp
      (fun h => by simpa [hle] using h)
  · rw [hout]
    exact List.mergeSort_perm cand le
  · intro q
    rw [hout]
    set p : DietEngine.ScoredRecipe → Bool := fun x => decide (x.pantry_score = q) with hp
    have hall : ∀ x ∈ cand.filter p, x.pantry_score = q := by
      intro x hx
      have hmem := List.of_mem_filter hx
      simpa [hp] using hmem
    have hpair : (cand.filter p).Pairwise (fun a b => le a b = true) := by
      apply List.pairwise_of_forall_mem_list
      intro a ha b hb
      simp only [hle, decide_eq_true_eq]
      rw [hall a ha, hall b hb]
    have hsub : List.Sublist (cand.filter p) (cand.mergeSort le) :=
      List.sublist_mergeSort trans total hpair (List.filter_sublist cand)
    have hsub2 : List.Sublist ((cand.filter p).filter p) ((cand.mergeSort le).filter p) :=
      hsub.filter p
    have hfp : (cand.filter p).filter p = cand.filter p := by
      apply List.filter_eq_self.mpr
      intro a ha
      simp only [hp, decide_eq_true_eq]
      exact hall a ha
    rw [hfp] at hsub2
    have hperm : List.Perm ((cand.mergeSort le).filter p) (cand.filter p) :=
      (List.mergeSort_perm cand le).filter p
    exact (hsub2.eq_of_length hperm.length_eq.symm).symm
